import Mathlib

/-
  Verification of the HOOMD-blue force/constraint evaluation core.

  Shallow embedding of four source units:
  * `EvaluatorVanDerWaals.h` — the three-body Van der Waals evaluator;
  * `FlatManifold.cc`        — the plane manifold (implicit function / gradient);
  * `ActiveForceComputeGPU.cc` — the per-timestep active-force pipeline;
  * `mkl_single_interface.h` — the declared local 1-D FFT backend interface.

  `Scalar` is modelled as the real numbers; `fast::sqrt` as `Real.sqrt`,
  `M_PI` as `Real.pi`.  C++ reference-out parameters become explicit inputs
  returned in the result.
-/

noncomputable section

namespace Hoomd

/-- `Scalar` of HOOMDMath.h, modelled as a real number. -/
abbrev Scalar : Type := ℝ

/-- `Scalar3` of HOOMDMath.h: a triple of scalars. -/
structure Scalar3 where
  x : Scalar
  y : Scalar
  z : Scalar

/-- `Scalar4` of HOOMDMath.h: a quadruple of scalars. -/
structure Scalar4 where
  x : Scalar
  y : Scalar
  z : Scalar
  w : Scalar

/-! ## EvaluatorVanDerWaals (src/hoomd/md/EvaluatorVanDerWaals.h)

The evaluator stores the squared ij distance, the squared cutoff and the
four parameters unpacked from the `Scalar4` parameter block.  (The member
`rik_sq` is set only through `setRik` and read by none of the member
functions modelled here, so it is omitted from the record.) -/

structure EvaluatorVanDerWaals where
  rij_sq : Scalar
  rcutsq : Scalar
  a : Scalar
  b : Scalar
  alpha : Scalar
  T : Scalar

namespace EvaluatorVanDerWaals

/-- The constructor `EvaluatorVanDerWaals(_rij_sq, _rcutsq, _params)`:
`a = params.x`, `b = params.y`, `alpha = params.z`, `T = params.w`. -/
def ctor (rij_sq rcutsq : Scalar) (params : Scalar4) : EvaluatorVanDerWaals :=
  { rij_sq := rij_sq, rcutsq := rcutsq,
    a := params.x, b := params.y, alpha := params.z, T := params.w }

/-- `evalRepulsiveAndAttractive`: does nothing but test the cutoff;
`fR` and `fA` are left untouched, so only the Bool result is modelled. -/
def evalRepulsiveAndAttractive (ev : EvaluatorVanDerWaals) : Prop :=
  ev.rij_sq < ev.rcutsq

/-- `evalPhi(Scalar &phi)`: adds the local-density contribution of this ij
pair to the accumulator `phi` when inside the cutoff, otherwise leaves
`phi` unchanged.  The reference parameter is modelled as input and
return value. -/
def evalPhi (ev : EvaluatorVanDerWaals) (phi : Scalar) : Scalar :=
  if ev.rij_sq < ev.rcutsq then
    let norm0 : Scalar := 15.0 / (2.0 * Real.pi)
    let rcut : Scalar := Real.sqrt ev.rcutsq
    let norm : Scalar := norm0 / (ev.rcutsq * rcut)
    let rij : Scalar := Real.sqrt ev.rij_sq
    let fac : Scalar := 1.0 - rij / rcut
    phi + fac * fac * norm
  else
    phi

/-- `evalForceij(fR, fA, chi, phi, &bij, &force_divr, &potential_eng)`:
inside the cutoff it overwrites `force_divr` with the radial force
coefficient; `bij` and `potential_eng` are never assigned in the source
body.  The three reference parameters are modelled as an input triple
returned (possibly updated) as the result `(bij, force_divr,
potential_eng)`. -/
def evalForceij (ev : EvaluatorVanDerWaals) (fR fA chi phi : Scalar)
    (bij force_divr potential_eng : Scalar) : Scalar × Scalar × Scalar :=
  if ev.rij_sq < ev.rcutsq then
    let rho_i0 : Scalar := phi
    let norm0 : Scalar := 15.0 / (2.0 * Real.pi)
    let rcut : Scalar := Real.sqrt ev.rcutsq
    let norm : Scalar := norm0 / (ev.rcutsq * rcut)
    let rij : Scalar := Real.sqrt ev.rij_sq
    let fac : Scalar := 1.0 - rij / rcut
    let rho_i : Scalar := rho_i0 + norm
    let force_divr2 : Scalar :=
      (ev.T / rho_i / (1.0 - ev.b * rho_i) - ev.a - ev.alpha * ev.a * ev.b * rho_i)
        * 2.0 * norm * fac / rcut / rij
    (bij, force_divr2, potential_eng)
  else
    (bij, force_divr, potential_eng)

end EvaluatorVanDerWaals

/-- The density increment `evalPhi` adds for one in-cutoff neighbor,
read off from the source body: `fac * fac * norm` with
`norm = (15/(2 pi)) / (rcutsq * rcut)`, `rcut = sqrt rcutsq`,
`fac = 1 - rij / rcut`.  It depends only on `rij_sq` and `rcutsq`. -/
def vdwPhiIncrement (rij_sq rcutsq : Scalar) : Scalar :=
  let rcut : Scalar := Real.sqrt rcutsq
  let norm : Scalar := (15.0 / (2.0 * Real.pi)) / (rcutsq * rcut)
  let fac : Scalar := 1.0 - Real.sqrt rij_sq / rcut
  fac * fac * norm

/-- The radial force coefficient `evalForceij` writes inside the cutoff,
read off from the source body. -/
def vdwForceDivr (rij_sq rcutsq a b alpha T phi : Scalar) : Scalar :=
  let rcut : Scalar := Real.sqrt rcutsq
  let norm : Scalar := (15.0 / (2.0 * Real.pi)) / (rcutsq * rcut)
  let rij : Scalar := Real.sqrt rij_sq
  let fac : Scalar := 1.0 - rij / rcut
  let rho_i : Scalar := phi + norm
  (T / rho_i / (1.0 - b * rho_i) - a - alpha * a * b * rho_i)
    * 2.0 * norm * fac / rcut / rij

/-! ## Theorems about the evaluator -/

/-- **C1.** Outside the cutoff (`rij_sq >= rcutsq`) `evalPhi` leaves the
accumulator `phi` unchanged, and `evalForceij` leaves all three output
parameters — in particular `force_divr` and `potential_eng` — unchanged. -/
theorem evaluator_cutoff_contributes_nothing
    (rij_sq rcutsq : Scalar) (params : Scalar4)
    (h : rij_sq ≥ rcutsq)
    (phi fR fA chi phi2 bij force_divr potential_eng : Scalar) :
    (EvaluatorVanDerWaals.ctor rij_sq rcutsq params).evalPhi phi = phi ∧
    (EvaluatorVanDerWaals.ctor rij_sq rcutsq params).evalForceij fR fA chi phi2
        bij force_divr potential_eng = (bij, force_divr, potential_eng) := by
  have hlt : ¬ rij_sq < rcutsq := not_lt.mpr h
  constructor
  · simp [EvaluatorVanDerWaals.evalPhi, EvaluatorVanDerWaals.ctor, hlt]
  · simp [EvaluatorVanDerWaals.evalForceij, EvaluatorVanDerWaals.ctor, hlt]

/-- Witness for C1 at `rij_sq = 9`, `rcutsq = 4`. -/
theorem evaluator_cutoff_contributes_nothing_witness :
    (9 : Scalar) ≥ 4 ∧
    (EvaluatorVanDerWaals.ctor 9 4 ⟨1, 1, 1, 1⟩).evalPhi 5 = 5 ∧
    (EvaluatorVanDerWaals.ctor 9 4 ⟨1, 1, 1, 1⟩).evalForceij 0 0 0 2 3 4 5
      = (3, 4, 5) := by
  refine ⟨by norm_num, ?_, ?_⟩
  · exact (evaluator_cutoff_contributes_nothing 9 4 ⟨1, 1, 1, 1⟩ (by norm_num)
      5 0 0 0 2 3 4 5).1
  · exact (evaluator_cutoff_contributes_nothing 9 4 ⟨1, 1, 1, 1⟩ (by norm_num)
      5 0 0 0 2 3 4 5).2

/-- **C3 counterexample.** At the in-cutoff input `rij_sq = 1 < 4 = rcutsq`,
the `potential_eng` output of `evalForceij` equals whatever value the
`potential_eng` parameter held on entry (here `11`, respectively `22`):
the pairwise potential energy share is not written into `potential_eng`. -/
theorem evalForceij_energy_not_written_counterexample :
    (1 : Scalar) < 4 ∧
    ((EvaluatorVanDerWaals.ctor 1 4 ⟨1, 1, 1, 1⟩).evalForceij 0 0 0 2 3 4 11).2.2
      = 11 ∧
    ((EvaluatorVanDerWaals.ctor 1 4 ⟨1, 1, 1, 1⟩).evalForceij 0 0 0 2 3 4 22).2.2
      = 22 ∧
    (11 : Scalar) ≠ 22 := by
  refine ⟨by norm_num, ?_, ?_, by norm_num⟩ <;>
    · unfold EvaluatorVanDerWaals.evalForceij
      split <;> rfl

/-- **C3 (amended).** Inside the cutoff, `evalForceij` writes the radial
force coefficient (`vdwForceDivr`, which does not depend on the incoming
`force_divr`) into `force_divr`; `bij` and `potential_eng` are left
unchanged — the pairwise energy share is not written (this evaluator
accounts energy per particle via `evalSelfEnergy` instead). -/
theorem evalForceij_writes_force_divr_only
    (rij_sq rcutsq : Scalar) (params : Scalar4) (h : rij_sq < rcutsq)
    (fR fA chi phi bij force_divr potential_eng : Scalar) :
    (EvaluatorVanDerWaals.ctor rij_sq rcutsq params).evalForceij fR fA chi phi
        bij force_divr potential_eng
      = (bij,
         vdwForceDivr rij_sq rcutsq params.x params.y params.z params.w phi,
         potential_eng) := by
  simp only [EvaluatorVanDerWaals.evalForceij, EvaluatorVanDerWaals.ctor,
    vdwForceDivr, if_pos h]

/-- Witness for the amended C3 at `rij_sq = 1`, `rcutsq = 4`. -/
theorem evalForceij_writes_force_divr_only_witness :
    (1 : Scalar) < 4 ∧
    (EvaluatorVanDerWaals.ctor 1 4 ⟨1, 1, 1, 1⟩).evalForceij 0 0 0 2 3 4 5
      = (3, vdwForceDivr 1 4 1 1 1 1 2, 5) :=
  ⟨by norm_num,
   evalForceij_writes_force_divr_only 1 4 ⟨1, 1, 1, 1⟩ (by norm_num) 0 0 0 2 3 4 5⟩

/-- Helper: `evalPhi` always returns the accumulator plus an increment that
does not depend on the accumulator. -/
theorem evalPhi_eq_add (rij_sq rcutsq : Scalar) (params : Scalar4)
    (phi : Scalar) :
    (EvaluatorVanDerWaals.ctor rij_sq rcutsq params).evalPhi phi
      = phi + (if rij_sq < rcutsq then vdwPhiIncrement rij_sq rcutsq else 0) := by
  by_cases h : rij_sq < rcutsq
  · simp only [EvaluatorVanDerWaals.evalPhi, EvaluatorVanDerWaals.ctor,
      vdwPhiIncrement, if_pos h]
  · simp only [EvaluatorVanDerWaals.evalPhi, EvaluatorVanDerWaals.ctor,
      if_neg h, add_zero]

/-- **C7.** `evalPhi` is additive: inside the cutoff it changes `phi` to
`phi + g(rij_sq, rcutsq)` where the increment
`g = (15/(2 pi rcut^3)) (1 - rij/rcut)^2` depends only on `rij_sq` and
`rcutsq`, not on `phi`; consequently folding `evalPhi` over a neighbor
list in any order yields the same total density. -/
theorem evalPhi_additive_order_independent (params : Scalar4) (rcutsq : Scalar) :
    (∀ phi rij_sq : Scalar, rij_sq < rcutsq →
      (EvaluatorVanDerWaals.ctor rij_sq rcutsq params).evalPhi phi
          = phi + vdwPhiIncrement rij_sq rcutsq ∧
      vdwPhiIncrement rij_sq rcutsq
          = 15 / (2 * Real.pi * Real.sqrt rcutsq ^ 3)
              * (1 - Real.sqrt rij_sq / Real.sqrt rcutsq) ^ 2) ∧
    (∀ (phi : Scalar) (l1 l2 : List Scalar), l1.Perm l2 →
      l1.foldl (fun acc r => (EvaluatorVanDerWaals.ctor r rcutsq params).evalPhi acc) phi
        = l2.foldl (fun acc r => (EvaluatorVanDerWaals.ctor r rcutsq params).evalPhi acc) phi) := by
  have key : (15 : ℝ) / (2 * Real.pi) / (rcutsq * Real.sqrt rcutsq)
      = 15 / (2 * Real.pi * Real.sqrt rcutsq ^ 3) := by
    rcases le_or_lt 0 rcutsq with hc | hc
    · have hs : Real.sqrt rcutsq ^ 2 = rcutsq := Real.sq_sqrt hc
      have hd : Real.sqrt rcutsq ^ 3 = rcutsq * Real.sqrt rcutsq :=
        calc Real.sqrt rcutsq ^ 3
            = Real.sqrt rcutsq ^ 2 * Real.sqrt rcutsq := by ring
          _ = rcutsq * Real.sqrt rcutsq := by rw [hs]
      rw [div_div, ← hd, mul_assoc]
    · have hs : Real.sqrt rcutsq = 0 := Real.sqrt_eq_zero_of_nonpos hc.le
      simp [hs]
  constructor
  · intro phi rij_sq h
    refine ⟨?_, ?_⟩
    · simp only [EvaluatorVanDerWaals.evalPhi, EvaluatorVanDerWaals.ctor,
        vdwPhiIncrement, if_pos h]
    · have : vdwPhiIncrement rij_sq rcutsq
          = (1 - Real.sqrt rij_sq / Real.sqrt rcutsq)
            * (1 - Real.sqrt rij_sq / Real.sqrt rcutsq)
            * ((15 : ℝ) / (2 * Real.pi) / (rcutsq * Real.sqrt rcutsq)) := by
        simp only [vdwPhiIncrement]; norm_num
      rw [this, key]; ring
  · have fold_eq : ∀ (l : List Scalar) (phi : Scalar),
        l.foldl (fun acc r => (EvaluatorVanDerWaals.ctor r rcutsq params).evalPhi acc) phi
          = phi + (l.map (fun r =>
              if r < rcutsq then vdwPhiIncrement r rcutsq else 0)).sum := by
      intro l
      induction l with
      | nil => intro phi; simp
      | cons a t ih =>
          intro phi
          simp only [List.foldl_cons, List.map_cons, List.sum_cons]
          rw [evalPhi_eq_add, ih]
          ring
    intro phi l1 l2 hp
    rw [fold_eq, fold_eq,
      (hp.map (fun r => if r < rcutsq then vdwPhiIncrement r rcutsq else 0)).sum_eq]

/-- Witness for C7 at `rcutsq = 4`, `rij_sq = 1`, lists `[1, 2]` and `[2, 1]`. -/
theorem evalPhi_additive_order_independent_witness :
    (1 : Scalar) < 4 ∧
    (EvaluatorVanDerWaals.ctor 1 4 ⟨0, 0, 0, 0⟩).evalPhi 0
      = 0 + vdwPhiIncrement 1 4 ∧
    [(1 : Scalar), 2].foldl
        (fun acc r => (EvaluatorVanDerWaals.ctor r 4 ⟨0, 0, 0, 0⟩).evalPhi acc) 0
      = [(2 : Scalar), 1].foldl
        (fun acc r => (EvaluatorVanDerWaals.ctor r 4 ⟨0, 0, 0, 0⟩).evalPhi acc) 0 :=
  ⟨by norm_num,
   (((evalPhi_additive_order_independent ⟨0, 0, 0, 0⟩ 4).1) 0 1 (by norm_num)).1,
   ((evalPhi_additive_order_independent ⟨0, 0, 0, 0⟩ 4).2) 0 [1, 2] [2, 1]
     (List.Perm.swap 2 1 [])⟩

/-! ## FlatManifold (src/hoomd/md/FlatManifold.cc)

The constructor tests the axis-selector string against the exact tokens
"XY"/"YX", "XZ"/"ZX", "YZ"/"ZY", setting one of the flags `xy`, `xz`, `yz`
and the code `m_surf` (4, 5 or 6); on no match all flags stay at their
default `false` and `m_surf` stays unset (modelled as `none`). -/

structure FlatManifold where
  m_shift : Scalar
  xy : Bool
  xz : Bool
  yz : Bool
  m_surf : Option Nat

namespace FlatManifold

/-- The constructor `FlatManifold(sysdef, surf, shift)` (the `sysdef`
argument only feeds the logger and is omitted). -/
def ctor (surf : String) (shift : Scalar) : FlatManifold :=
  if surf = "XY" ∨ surf = "YX" then
    { m_shift := shift, xy := true, xz := false, yz := false, m_surf := some 4 }
  else if surf = "XZ" ∨ surf = "ZX" then
    { m_shift := shift, xy := false, xz := true, yz := false, m_surf := some 5 }
  else if surf = "YZ" ∨ surf = "ZY" then
    { m_shift := shift, xy := false, xz := false, yz := true, m_surf := some 6 }
  else
    { m_shift := shift, xy := false, xz := false, yz := false, m_surf := none }

/-- `FlatManifold::implicit_function(Scalar3 point)`. -/
def implicit_function (m : FlatManifold) (point : Scalar3) : Scalar :=
  if m.xy then point.z - m.m_shift
  else if m.xz then point.y - m.m_shift
  else point.x - m.m_shift

/-- `FlatManifold::derivative(Scalar3 point)`. -/
def derivative (m : FlatManifold) (point : Scalar3) : Scalar3 :=
  if m.xy then ⟨0, 0, 1⟩
  else if m.xz then ⟨0, 1, 0⟩
  else ⟨1, 0, 0⟩

end FlatManifold

/-- **C2.** For each recognized axis selector, `implicit_function` returns
`point[normal_axis] - shift` and `derivative` returns the constant unit
vector along the normal axis, independent of the point; in particular the
manifold built from "XY" with shift 2 at point (5, 5, 7) gives implicit
value 5 and gradient (0, 0, 1). -/
theorem flat_manifold_recognized_axes (shift : Scalar) (p : Scalar3) :
    ((FlatManifold.ctor "XY" shift).implicit_function p = p.z - shift ∧
     (FlatManifold.ctor "XY" shift).derivative p = ⟨0, 0, 1⟩) ∧
    ((FlatManifold.ctor "YX" shift).implicit_function p = p.z - shift ∧
     (FlatManifold.ctor "YX" shift).derivative p = ⟨0, 0, 1⟩) ∧
    ((FlatManifold.ctor "XZ" shift).implicit_function p = p.y - shift ∧
     (FlatManifold.ctor "XZ" shift).derivative p = ⟨0, 1, 0⟩) ∧
    ((FlatManifold.ctor "ZX" shift).implicit_function p = p.y - shift ∧
     (FlatManifold.ctor "ZX" shift).derivative p = ⟨0, 1, 0⟩) ∧
    ((FlatManifold.ctor "YZ" shift).implicit_function p = p.x - shift ∧
     (FlatManifold.ctor "YZ" shift).derivative p = ⟨1, 0, 0⟩) ∧
    ((FlatManifold.ctor "ZY" shift).implicit_function p = p.x - shift ∧
     (FlatManifold.ctor "ZY" shift).derivative p = ⟨1, 0, 0⟩) ∧
    ((FlatManifold.ctor "XY" 2).implicit_function ⟨5, 5, 7⟩ = 5 ∧
     (FlatManifold.ctor "XY" 2).derivative ⟨5, 5, 7⟩ = ⟨0, 0, 1⟩) := by
  refine ⟨⟨?_, ?_⟩, ⟨?_, ?_⟩, ⟨?_, ?_⟩, ⟨?_, ?_⟩, ⟨?_, ?_⟩, ⟨?_, ?_⟩, ⟨?_, ?_⟩⟩ <;>
    simp [FlatManifold.ctor, FlatManifold.implicit_function,
      FlatManifold.derivative] <;> norm_num

/-- **C6 counterexample.** The claim says lowercase / mixed-case selectors
such as "xy" and "Yx" are recognized; in the code they are not: neither
sets any axis flag nor `m_surf`, while the uppercase "XY" does. -/
theorem flat_manifold_lowercase_not_recognized :
    ((FlatManifold.ctor "xy" 0).xy = false ∧
     (FlatManifold.ctor "xy" 0).xz = false ∧
     (FlatManifold.ctor "xy" 0).yz = false ∧
     (FlatManifold.ctor "xy" 0).m_surf = none) ∧
    ((FlatManifold.ctor "Yx" 0).xy = false ∧
     (FlatManifold.ctor "Yx" 0).xz = false ∧
     (FlatManifold.ctor "Yx" 0).yz = false ∧
     (FlatManifold.ctor "Yx" 0).m_surf = none) ∧
    (FlatManifold.ctor "XY" 0).xy = true := by
  refine ⟨⟨?_, ?_, ?_, ?_⟩, ⟨?_, ?_, ?_, ?_⟩, ?_⟩ <;>
    simp [FlatManifold.ctor]

/-- **C6 (amended).** The axis selector is matched order-insensitively but
case-sensitively: exactly the six uppercase tokens "XY", "YX", "XZ", "ZX",
"YZ", "ZY" are recognized (setting the corresponding flag and `m_surf`
code), and lowercase or mixed-case variants such as "xy", "Yx" are not. -/
theorem flat_manifold_axis_tokens (shift : Scalar) :
    ((FlatManifold.ctor "XY" shift).xy = true ∧
     (FlatManifold.ctor "XY" shift).m_surf = some 4) ∧
    ((FlatManifold.ctor "YX" shift).xy = true ∧
     (FlatManifold.ctor "YX" shift).m_surf = some 4) ∧
    ((FlatManifold.ctor "XZ" shift).xz = true ∧
     (FlatManifold.ctor "XZ" shift).m_surf = some 5) ∧
    ((FlatManifold.ctor "ZX" shift).xz = true ∧
     (FlatManifold.ctor "ZX" shift).m_surf = some 5) ∧
    ((FlatManifold.ctor "YZ" shift).yz = true ∧
     (FlatManifold.ctor "YZ" shift).m_surf = some 6) ∧
    ((FlatManifold.ctor "ZY" shift).yz = true ∧
     (FlatManifold.ctor "ZY" shift).m_surf = some 6) ∧
    (FlatManifold.ctor "xy" shift).m_surf = none ∧
    (FlatManifold.ctor "Yx" shift).m_surf = none ∧
    (FlatManifold.ctor "yX" shift).m_surf = none ∧
    (FlatManifold.ctor "Xy" shift).m_surf = none := by
  refine ⟨⟨?_, ?_⟩, ⟨?_, ?_⟩, ⟨?_, ?_⟩, ⟨?_, ?_⟩, ⟨?_, ?_⟩, ⟨?_, ?_⟩,
    ?_, ?_, ?_, ?_⟩ <;> simp [FlatManifold.ctor]

/-- **C10.** For every axis selector outside the six recognized tokens, no
axis flag is set and the object behaves exactly like the "YZ"
configuration: `implicit_function` returns `point.x - shift` and
`derivative` returns (1, 0, 0) for every point, with no failure. -/
theorem flat_manifold_unrecognized_defaults (surf : String) (shift : Scalar)
    (p : Scalar3)
    (h : surf ∉ ["XY", "YX", "XZ", "ZX", "YZ", "ZY"]) :
    (FlatManifold.ctor surf shift).xy = false ∧
    (FlatManifold.ctor surf shift).xz = false ∧
    (FlatManifold.ctor surf shift).yz = false ∧
    (FlatManifold.ctor surf shift).implicit_function p = p.x - shift ∧
    (FlatManifold.ctor surf shift).derivative p = ⟨1, 0, 0⟩ ∧
    (FlatManifold.ctor surf shift).implicit_function p
      = (FlatManifold.ctor "YZ" shift).implicit_function p ∧
    (FlatManifold.ctor surf shift).derivative p
      = (FlatManifold.ctor "YZ" shift).derivative p := by
  simp only [List.mem_cons, List.mem_singleton, not_or] at h
  obtain ⟨h1, h2, h3, h4, h5, h6, -⟩ := h
  simp [FlatManifold.ctor, FlatManifold.implicit_function,
    FlatManifold.derivative, h1, h2, h3, h4, h5, h6]

/-- Witness for C10 at the unrecognized selector "AB". -/
theorem flat_manifold_unrecognized_defaults_witness :
    "AB" ∉ ["XY", "YX", "XZ", "ZX", "YZ", "ZY"] ∧
    ((FlatManifold.ctor "AB" 1).xy = false ∧
     (FlatManifold.ctor "AB" 1).xz = false ∧
     (FlatManifold.ctor "AB" 1).yz = false ∧
     (FlatManifold.ctor "AB" 1).implicit_function ⟨3, 4, 5⟩ = 3 - 1 ∧
     (FlatManifold.ctor "AB" 1).derivative ⟨3, 4, 5⟩ = ⟨1, 0, 0⟩ ∧
     (FlatManifold.ctor "AB" 1).implicit_function ⟨3, 4, 5⟩
       = (FlatManifold.ctor "YZ" 1).implicit_function ⟨3, 4, 5⟩ ∧
     (FlatManifold.ctor "AB" 1).derivative ⟨3, 4, 5⟩
       = (FlatManifold.ctor "YZ" 1).derivative ⟨3, 4, 5⟩) :=
  ⟨by decide,
   flat_manifold_unrecognized_defaults "AB" 1 ⟨3, 4, 5⟩ (by decide)⟩

/-! ## ActiveForceComputeGPU (src/libhoomd/computes_gpu/ActiveForceComputeGPU.cc)

The per-timestep pipeline of `computeForces` and the constructor's CUDA
check are in the source file.  The three per-particle kernels
(`gpu_compute_active_force_set_constraints`,
`gpu_compute_active_force_rotational_diffusion`,
`gpu_compute_active_force_set_forces`) live in ActiveForceComputeGPU.cu,
outside the excerpt set, so the constraint and diffusion steps are
abstracted as state transformers and the force kernel as a function of
the arrays `setForces` opens read-only. -/

/-- The execution-configuration collaborator, reduced to the one query
`computeForces`' constructor makes: `isCUDAEnabled()`. -/
structure ExecutionConfiguration where
  isCUDAEnabled : Bool

/-- The members an `ActiveForceComputeGPU` object stores at construction:
the base-class parameters and `m_block_size` (set to 256). -/
structure ActiveForceComputeGPUData where
  seed : Int
  f_lst : List Scalar3
  orientation_link : Bool
  rotation_diff : Scalar
  P : Scalar3
  rx : Scalar
  ry : Scalar
  rz : Scalar
  m_block_size : Nat

/-- The per-particle arrays the pipeline touches: the active-state buffers
`m_activeVec` / `m_activeMag`, the particle-data arrays (orientation,
reverse tags, positions) and the shared force buffer, each indexed by
storage slot. -/
structure ActiveForceState where
  activeVec : Nat → Scalar3
  activeMag : Nat → Scalar
  orientation : Nat → Scalar4
  rtag : Nat → Nat
  pos : Nat → Scalar4
  force : Nat → Scalar4

/-- The arrays `setForces` acquires with `access_mode::read`
(the force buffer, acquired with `access_mode::overwrite`, is absent). -/
structure ActiveForceReadState where
  activeVec : Nat → Scalar3
  activeMag : Nat → Scalar
  orientation : Nat → Scalar4
  rtag : Nat → Nat

/-- The read-only arrays `setForces` passes to its kernel. -/
def readState (s : ActiveForceState) : ActiveForceReadState :=
  { activeVec := s.activeVec, activeMag := s.activeMag,
    orientation := s.orientation, rtag := s.rtag }

namespace ActiveForceComputeGPU

/-- The constructor `ActiveForceComputeGPU(...)`: after the base-class
members are stored it checks `isCUDAEnabled()` and throws a
`std::runtime_error` when no GPU is present; `m_block_size` is 256. -/
def ctor (conf : ExecutionConfiguration) (seed : Int) (f_lst : List Scalar3)
    (orientation_link : Bool) (rotation_diff : Scalar) (P : Scalar3)
    (rx ry rz : Scalar) : Except String ActiveForceComputeGPUData :=
  if ! conf.isCUDAEnabled then
    Except.error "Error initializing ActiveForceComputeGPU"
  else
    Except.ok
      { seed := seed, f_lst := f_lst, orientation_link := orientation_link,
        rotation_diff := rotation_diff, P := P, rx := rx, ry := ry, rz := rz,
        m_block_size := 256 }

/-- `ActiveForceComputeGPU::setForces`: overwrites the force buffer with
the output of `gpu_compute_active_force_set_forces` (a function of the
read-only arrays only) and leaves every other array unchanged. -/
def setForces (kernel : ActiveForceReadState → Nat → Scalar4)
    (s : ActiveForceState) : ActiveForceState :=
  { s with force := kernel (readState s) }

/-- `ActiveForceComputeGPU::computeForces(timestep)`: when
`shouldCompute(timestep)` holds it runs `setConstraint()` if `m_rx != 0`,
then `rotationalDiffusion(timestep)` if `m_rotationDiff != 0`, then
always `setForces()`; otherwise it does nothing.  The two conditional
steps are the abstract transformers `setConstraintF` and `diffusionF`. -/
def computeForces (shouldCompute : Bool) (rx rotationDiff : Scalar)
    (setConstraintF diffusionF : ActiveForceState → ActiveForceState)
    (kernel : ActiveForceReadState → Nat → Scalar4)
    (s : ActiveForceState) : ActiveForceState :=
  if shouldCompute then
    let s1 := if rx ≠ 0 then setConstraintF s else s
    let s2 := if rotationDiff ≠ 0 then diffusionF s1 else s1
    setForces kernel s2
  else s

end ActiveForceComputeGPU

/-- The three steps of the per-timestep pipeline. -/
inductive PipelineStep where
  | constraintStep
  | diffusionStep
  | forceStep
deriving DecidableEq

/-- The sequence of steps `computeForces` executes for given gate values,
read off from its body. -/
def computeForcesTrace (shouldCompute : Bool) (rx rotationDiff : Scalar) :
    List PipelineStep :=
  if shouldCompute then
    (if rx ≠ 0 then [PipelineStep.constraintStep] else []) ++
    (if rotationDiff ≠ 0 then [PipelineStep.diffusionStep] else []) ++
    [PipelineStep.forceStep]
  else []

/-- Interpretation of one pipeline step as a state transformer. -/
def stepApply (setConstraintF diffusionF : ActiveForceState → ActiveForceState)
    (kernel : ActiveForceReadState → Nat → Scalar4) :
    PipelineStep → ActiveForceState → ActiveForceState
  | PipelineStep.constraintStep, s => setConstraintF s
  | PipelineStep.diffusionStep, s => diffusionF s
  | PipelineStep.forceStep, s => ActiveForceComputeGPU.setForces kernel s

/-- **C4.** `computeForces` performs the pipeline only when
`shouldCompute` holds, and then in the fixed order: the constraint step
first and only if `rx != 0`, the diffusion step second and only if
`rotationDiff != 0`, and `setForces` always last; `computeForces` equals
running its trace left to right. -/
theorem computeForces_pipeline_order (sc : Bool) (rx rotationDiff : Scalar)
    (setConstraintF diffusionF : ActiveForceState → ActiveForceState)
    (kernel : ActiveForceReadState → Nat → Scalar4) (s : ActiveForceState) :
    (sc = false → computeForcesTrace sc rx rotationDiff = []) ∧
    (computeForcesTrace sc rx rotationDiff).Sublist
      [PipelineStep.constraintStep, PipelineStep.diffusionStep,
       PipelineStep.forceStep] ∧
    (sc = true →
      (computeForcesTrace sc rx rotationDiff).getLast?
          = some PipelineStep.forceStep ∧
      (PipelineStep.constraintStep ∈ computeForcesTrace sc rx rotationDiff ↔
        rx ≠ 0) ∧
      (PipelineStep.diffusionStep ∈ computeForcesTrace sc rx rotationDiff ↔
        rotationDiff ≠ 0)) ∧
    ActiveForceComputeGPU.computeForces sc rx rotationDiff
        setConstraintF diffusionF kernel s
      = (computeForcesTrace sc rx rotationDiff).foldl
          (fun st step => stepApply setConstraintF diffusionF kernel step st) s := by
  cases sc with
  | false =>
      refine ⟨fun _ => rfl, ?_, fun h => Bool.noConfusion h, ?_⟩
      · simp [computeForcesTrace]
      · simp [computeForcesTrace, ActiveForceComputeGPU.computeForces]
  | true =>
      by_cases hx : rx ≠ 0 <;> by_cases hd : rotationDiff ≠ 0 <;>
        refine ⟨fun h => Bool.noConfusion h, ?_, fun _ => ⟨?_, ?_, ?_⟩, ?_⟩ <;>
        simp only [computeForcesTrace, ActiveForceComputeGPU.computeForces,
          stepApply, hx, hd, if_true, if_false, ite_true, ite_false,
          not_false_eq_true, not_true_eq_false, ne_eq, ite_not,
          List.append_assoc, List.nil_append, List.append_nil,
          List.cons_append, List.foldl_cons, List.foldl_nil] <;>
        first
          | rfl
          | decide

/-- Witness for C4: `shouldCompute = true` with both gates nonzero runs
all three steps in order, and `shouldCompute = false` runs none. -/
theorem computeForces_pipeline_order_witness :
    (computeForcesTrace true 1 1).getLast? = some PipelineStep.forceStep ∧
    (PipelineStep.constraintStep ∈ computeForcesTrace true 1 1 ↔
      (1 : Scalar) ≠ 0) ∧
    computeForcesTrace false 1 1 = [] ∧
    ActiveForceComputeGPU.computeForces true 1 1 id id
        (fun _ _ => ⟨0, 0, 0, 0⟩)
        ⟨fun _ => ⟨0, 0, 0⟩, fun _ => 0, fun _ => ⟨0, 0, 0, 0⟩, fun _ => 0,
         fun _ => ⟨0, 0, 0, 0⟩, fun _ => ⟨0, 0, 0, 0⟩⟩
      = (computeForcesTrace true 1 1).foldl
          (fun st step => stepApply id id (fun _ _ => ⟨0, 0, 0, 0⟩) step st)
          ⟨fun _ => ⟨0, 0, 0⟩, fun _ => 0, fun _ => ⟨0, 0, 0, 0⟩, fun _ => 0,
           fun _ => ⟨0, 0, 0, 0⟩, fun _ => ⟨0, 0, 0, 0⟩⟩ := by
  refine ⟨?_, ?_, ?_, ?_⟩
  · exact ((computeForces_pipeline_order true 1 1 id id (fun _ _ => ⟨0, 0, 0, 0⟩)
      ⟨fun _ => ⟨0, 0, 0⟩, fun _ => 0, fun _ => ⟨0, 0, 0, 0⟩, fun _ => 0,
       fun _ => ⟨0, 0, 0, 0⟩, fun _ => ⟨0, 0, 0, 0⟩⟩).2.2.1 rfl).1
  · exact ((computeForces_pipeline_order true 1 1 id id (fun _ _ => ⟨0, 0, 0, 0⟩)
      ⟨fun _ => ⟨0, 0, 0⟩, fun _ => 0, fun _ => ⟨0, 0, 0, 0⟩, fun _ => 0,
       fun _ => ⟨0, 0, 0, 0⟩, fun _ => ⟨0, 0, 0, 0⟩⟩).2.2.1 rfl).2.1
  · exact (computeForces_pipeline_order false 1 1 id id (fun _ _ => ⟨0, 0, 0, 0⟩)
      ⟨fun _ => ⟨0, 0, 0⟩, fun _ => 0, fun _ => ⟨0, 0, 0, 0⟩, fun _ => 0,
       fun _ => ⟨0, 0, 0, 0⟩, fun _ => ⟨0, 0, 0, 0⟩⟩).1 rfl
  · exact (computeForces_pipeline_order true 1 1 id id (fun _ _ => ⟨0, 0, 0, 0⟩)
      ⟨fun _ => ⟨0, 0, 0⟩, fun _ => 0, fun _ => ⟨0, 0, 0, 0⟩, fun _ => 0,
       fun _ => ⟨0, 0, 0, 0⟩, fun _ => ⟨0, 0, 0, 0⟩⟩).2.2.2

/-- **C5.** Constructing an `ActiveForceComputeGPU` when the execution
configuration reports no CUDA device fails with the construction-time
error, producing no object on which a per-timestep computation could run. -/
theorem gpu_ctor_requires_cuda (conf : ExecutionConfiguration)
    (h : conf.isCUDAEnabled = false)
    (seed : Int) (f_lst : List Scalar3) (orientation_link : Bool)
    (rotation_diff : Scalar) (P : Scalar3) (rx ry rz : Scalar) :
    ActiveForceComputeGPU.ctor conf seed f_lst orientation_link rotation_diff
        P rx ry rz
      = Except.error "Error initializing ActiveForceComputeGPU" := by
  simp [ActiveForceComputeGPU.ctor, h]

/-- Witness for C5 at a configuration with `isCUDAEnabled = false`. -/
theorem gpu_ctor_requires_cuda_witness :
    ExecutionConfiguration.isCUDAEnabled ⟨false⟩ = false ∧
    ActiveForceComputeGPU.ctor ⟨false⟩ 7 [] false 0 ⟨0, 0, 0⟩ 0 0 0
      = Except.error "Error initializing ActiveForceComputeGPU" :=
  ⟨rfl, gpu_ctor_requires_cuda ⟨false⟩ rfl 7 [] false 0 ⟨0, 0, 0⟩ 0 0 0⟩

/-- **C8.** With zero constraint radius and zero rotational diffusion,
running `computeForces` twice in succession with no external state change
gives the same state — in particular the second run writes the same force
buffer as the first. -/
theorem computeForces_idempotent_zero_params (sc : Bool) (rx rotationDiff : Scalar)
    (hrx : rx = 0) (hrd : rotationDiff = 0)
    (setConstraintF diffusionF : ActiveForceState → ActiveForceState)
    (kernel : ActiveForceReadState → Nat → Scalar4) (s : ActiveForceState) :
    ActiveForceComputeGPU.computeForces sc rx rotationDiff setConstraintF
        diffusionF kernel
        (ActiveForceComputeGPU.computeForces sc rx rotationDiff setConstraintF
          diffusionF kernel s)
      = ActiveForceComputeGPU.computeForces sc rx rotationDiff setConstraintF
          diffusionF kernel s ∧
    (ActiveForceComputeGPU.computeForces sc rx rotationDiff setConstraintF
        diffusionF kernel
        (ActiveForceComputeGPU.computeForces sc rx rotationDiff setConstraintF
          diffusionF kernel s)).force
      = (ActiveForceComputeGPU.computeForces sc rx rotationDiff setConstraintF
          diffusionF kernel s).force := by
  subst hrx hrd
  cases sc with
  | false => exact ⟨rfl, rfl⟩
  | true =>
      have h :
          ActiveForceComputeGPU.computeForces true 0 0 setConstraintF
              diffusionF kernel
              (ActiveForceComputeGPU.computeForces true 0 0 setConstraintF
                diffusionF kernel s)
            = ActiveForceComputeGPU.computeForces true 0 0 setConstraintF
                diffusionF kernel s := by
        simp [ActiveForceComputeGPU.computeForces,
          ActiveForceComputeGPU.setForces, readState]
      exact ⟨h, by rw [h]⟩

/-- Witness for C8 at a concrete state and kernel. -/
theorem computeForces_idempotent_zero_params_witness :
    (0 : Scalar) = 0 ∧
    ActiveForceComputeGPU.computeForces true 0 0 id id
        (fun r i => ⟨(r.activeVec i).x * r.activeMag i, 0, 0, 0⟩)
        (ActiveForceComputeGPU.computeForces true 0 0 id id
          (fun r i => ⟨(r.activeVec i).x * r.activeMag i, 0, 0, 0⟩)
          ⟨fun _ => ⟨1, 2, 3⟩, fun _ => 2, fun _ => ⟨0, 0, 0, 1⟩, fun i => i,
           fun _ => ⟨0, 0, 0, 0⟩, fun _ => ⟨9, 9, 9, 9⟩⟩)
      = ActiveForceComputeGPU.computeForces true 0 0 id id
          (fun r i => ⟨(r.activeVec i).x * r.activeMag i, 0, 0, 0⟩)
          ⟨fun _ => ⟨1, 2, 3⟩, fun _ => 2, fun _ => ⟨0, 0, 0, 1⟩, fun i => i,
           fun _ => ⟨0, 0, 0, 0⟩, fun _ => ⟨9, 9, 9, 9⟩⟩ :=
  ⟨rfl,
   (computeForces_idempotent_zero_params true 0 0 rfl rfl id id
      (fun r i => ⟨(r.activeVec i).x * r.activeMag i, 0, 0, 0⟩)
      ⟨fun _ => ⟨1, 2, 3⟩, fun _ => 2, fun _ => ⟨0, 0, 0, 1⟩, fun i => i,
       fun _ => ⟨0, 0, 0, 0⟩, fun _ => ⟨9, 9, 9, 9⟩⟩).1⟩

/-! ## Local 1-D FFT backend
(src/hoomd/extern/dfftlib/src/mkl_single_interface.h)

Only the declarations of the MKL backend are in the excerpt set; the
decisive fact for error reporting is each operation's declared C return
type, embedded here verbatim. -/

/-- The C return types occurring in the declared dfftlib MKL interface. -/
inductive CReturnType where
  | voidTy
  | intTy
deriving DecidableEq

/-- A declared C function: its name and return type. -/
structure CFunDecl where
  name : String
  ret : CReturnType

/-- `int dfft_init_local_fft();` -/
def dfft_init_local_fft_decl : CFunDecl :=
  { name := "dfft_init_local_fft", ret := CReturnType.intTy }

/-- `void dfft_teardown_local_fft();` -/
def dfft_teardown_local_fft_decl : CFunDecl :=
  { name := "dfft_teardown_local_fft", ret := CReturnType.voidTy }

/-- `int dfft_create_1d_plan(plan_t*, int, int, int, int, int, int, int);` -/
def dfft_create_1d_plan_decl : CFunDecl :=
  { name := "dfft_create_1d_plan", ret := CReturnType.intTy }

/-- `int dfft_allocate_aligned_memory(cpx_t**, size_t);` -/
def dfft_allocate_aligned_memory_decl : CFunDecl :=
  { name := "dfft_allocate_aligned_memory", ret := CReturnType.intTy }

/-- `void dfft_free_aligned_memory(cpx_t*);` -/
def dfft_free_aligned_memory_decl : CFunDecl :=
  { name := "dfft_free_aligned_memory", ret := CReturnType.voidTy }

/-- `void dfft_destroy_1d_plan(plan_t*);` -/
def dfft_destroy_1d_plan_decl : CFunDecl :=
  { name := "dfft_destroy_1d_plan", ret := CReturnType.voidTy }

/-- `void dfft_local_1dfft(cpx_t*, cpx_t*, plan_t, int);` — the execute
operation. -/
def dfft_local_1dfft_decl : CFunDecl :=
  { name := "dfft_local_1dfft", ret := CReturnType.voidTy }

/-- A declared C function can report failure to its caller through the
return value only when its return type is not `void`. -/
def reportsFailureToCaller (f : CFunDecl) : Prop :=
  f.ret ≠ CReturnType.voidTy

instance (f : CFunDecl) : Decidable (reportsFailureToCaller f) := by
  unfold reportsFailureToCaller
  infer_instance

/-- **C9 counterexample.** The execute operation `dfft_local_1dfft` is
declared with return type `void`: it has no channel through which a
DirectionMismatchError (or any failure) could be reported to the caller,
so the claim fails at this very operation. -/
theorem dfft_execute_reports_failure_counterexample :
    ¬ reportsFailureToCaller dfft_local_1dfft_decl ∧
    dfft_local_1dfft_decl.ret = CReturnType.voidTy := by
  exact ⟨by decide, rfl⟩

/-- **C9 (amended).** In the declared MKL backend interface, the
setup-side operations (`dfft_init_local_fft`, `dfft_create_1d_plan`,
`dfft_allocate_aligned_memory`) report failure via their `int` return
values, but the execute operation `dfft_local_1dfft` — like teardown,
free and destroy — is declared `void` and cannot report a
DirectionMismatchError or any other failure to its caller. -/
theorem dfft_failure_reporting_surface :
    reportsFailureToCaller dfft_init_local_fft_decl ∧
    reportsFailureToCaller dfft_create_1d_plan_decl ∧
    reportsFailureToCaller dfft_allocate_aligned_memory_decl ∧
    ¬ reportsFailureToCaller dfft_teardown_local_fft_decl ∧
    ¬ reportsFailureToCaller dfft_free_aligned_memory_decl ∧
    ¬ reportsFailureToCaller dfft_destroy_1d_plan_decl ∧
    ¬ reportsFailureToCaller dfft_local_1dfft_decl := by
  decide

end Hoomd
